import Mathlib

/-!
Shallow embedding of the JNPA internship-letter workflow (src/app.py, src/config.py).

A request record is a Firestore document of the `internship_requests` collection.
The lifecycle handlers `submit`, `admin_approve`, `admin_reject`, `download_letter`
and `uploaded_file` below are translated from the corresponding Flask route
handlers in src/app.py.  External collaborators (Firestore, the filesystem, the
PDF engines, werkzeug's secure_filename) are made explicit: Firestore documents
become an association list keyed by document id, the filesystem becomes a list of
existing paths, success or failure of the PDF engines and of Firestore updates
become boolean parameters, and the sanitized upload name is passed in as an
argument (its computation lives in werkzeug, outside this repository).
-/

namespace JNPA

/-- A document of the `internship_requests` collection, with the fields written by
`submit` (src/app.py lines 178-194) and mutated by `admin_approve` / `admin_reject`.
`none` models a field that is absent or Python `None`. -/
structure Rec where
  doc_id : String
  student_name : String
  college_name : String
  email : String
  start_date : String
  end_date : String
  duration : String
  student_year : String
  branch : String
  other_branch : String
  permission_pdf : String
  permission_path : String
  status : String
  submission_date : String
  created_at : String
  generated_letter_filename : Option String := none
  generated_letter_path : Option String := none
  approved_at : Option String := none
  issued_date : Option String := none
  pdf_url : Option String := none
  deriving Repr, DecidableEq

/-!  String utilities.  The handlers manipulate Python `str` values; these are the
corresponding operations, written by structural recursion on the character list so
that every concrete instance evaluates. -/

/-- ASCII lowering of one character (the effect of Python `.lower()` on the ASCII
inputs these handlers compare). -/
def lowerChar (c : Char) : Char :=
  if 'A' ≤ c ∧ c ≤ 'Z' then Char.ofNat (c.toNat + 32) else c

/-- Python `s.lower()` (ASCII). -/
def toLowerStr (s : String) : String := ⟨s.data.map lowerChar⟩

/-- Split a character list at every occurrence of `sep`; `[[]]` on the empty list,
matching Python `"".split(sep) == [""]`. -/
def splitChar (sep : Char) : List Char → List (List Char)
  | [] => [[]]
  | c :: cs =>
    match splitChar sep cs with
    | [] => [[c]]
    | h :: t => if c = sep then [] :: h :: t else (c :: h) :: t

/-- Python `s.split(sep)` for a one-character separator. -/
def splitOnChar (sep : Char) (s : String) : List String :=
  (splitChar sep s.data).map (fun l => ⟨l⟩)

/-- Python whitespace test used by `.strip()` (the characters these forms contain). -/
def isSpaceChar (c : Char) : Bool :=
  c = ' ' ∨ c = '\t' ∨ c = '\n' ∨ c = '\r'

/-- Python `s.strip()`. -/
def trimStr (s : String) : String :=
  ⟨(((s.data.dropWhile isSpaceChar).reverse).dropWhile isSpaceChar).reverse⟩

/-- `p` is a prefix of `s`, character by character. -/
def isPrefixCh : List Char → List Char → Bool
  | [], _ => true
  | _ :: _, [] => false
  | a :: as, b :: bs => a = b && isPrefixCh as bs

/-- Python `s.startswith(p)`. -/
def strStartsWith (s p : String) : Bool := isPrefixCh p.data s.data

/-- Python `s.lstrip("/")`. -/
def stripLeadingSlashes (s : String) : String :=
  ⟨s.data.dropWhile (fun c => c = '/')⟩

/-- src/app.py line 82: `'.' in filename and filename.rsplit('.', 1)[1].lower() in ALLOWED_EXT`
with `ALLOWED_EXT = \x7b'pdf'\x7d`.  The split at `'.'` has length at least 2 exactly when
the name contains a dot, and its last component is what `rsplit('.', 1)[1]` yields. -/
def allowed_file (filename : String) : Bool :=
  decide ((splitOnChar '.' filename).length ≥ 2) &&
    toLowerStr ((splitOnChar '.' filename).getLastD "") == "pdf"

/-- The raw form fields read by `submit` (src/app.py lines 127-137), before `.strip()`. -/
structure Form where
  full_name : String
  college_name : String
  email : String
  start_date : String
  end_date : String
  duration : String
  student_year : String
  branch : String
  other_branch : String
  submission_date : String
  deriving Repr, DecidableEq

/-- src/app.py lines 170-173: `if branch == "Other" and other_branch: f"Other ({other_branch})"
else branch or other_branch or ""`. -/
def branch_final (branch other_branch : String) : String :=
  if branch == "Other" && other_branch != "" then "Other (" ++ other_branch ++ ")"
  else if branch != "" then branch
  else if other_branch != "" then other_branch
  else ""

/-- The three failure messages flashed by `submit` (src/app.py lines 143, 149, 152). -/
inductive SubmitErr
  | missingFields
  | missingFile
  | wrongType
  deriving Repr, DecidableEq

/-- The `submit` route handler (src/app.py lines 124-198).

Inputs beyond the form: `file` is the uploaded file's original filename (`none`
when no file part was sent; the empty string models an empty filename),
`securedName` is `secure_filename(file.filename)` computed by werkzeug (external),
`freshId` is the id Firestore assigns to the new document reference, `nowDate`,
`nowTs` and `nowIso` are the three formattings of `datetime.utcnow()` the handler
takes (`%Y-%m-%d`, `%Y%m%d%H%M%S%f`, `isoformat`), and `uploadBase` is
`UPLOAD_FOLDER`.  On success it returns the payload written by `doc_ref.set`. -/
def submit (f : Form) (file : Option String) (securedName : String)
    (freshId nowDate nowTs nowIso uploadBase : String) : Except SubmitErr Rec :=
  let name := trimStr f.full_name
  let college := trimStr f.college_name
  let email := trimStr f.email
  let start_date := trimStr f.start_date
  let end_date := trimStr f.end_date
  let duration := trimStr f.duration
  let student_year := trimStr f.student_year
  let branch := trimStr f.branch
  let other_branch := trimStr f.other_branch
  if name = "" ∨ college = "" ∨ email = "" ∨ start_date = "" ∨ end_date = "" ∨ duration = ""
  then .error .missingFields
  else
    match file with
    | none => .error .missingFile
    | some fn =>
      if fn = "" then .error .missingFile
      else if ¬ allowed_file fn then .error .wrongType
      else
        let saved_filename := nowTs ++ "_" ++ securedName
        .ok {
          doc_id := freshId
          student_name := name
          college_name := college
          email := email
          start_date := start_date
          end_date := end_date
          duration := duration
          student_year := student_year
          branch := branch_final branch other_branch
          other_branch := other_branch
          permission_pdf := uploadBase ++ "/permission_letters/" ++ saved_filename
          permission_path := "permission_letters/" ++ saved_filename
          status := "pending"
          submission_date :=
            if trimStr f.submission_date = "" then nowDate else trimStr f.submission_date
          created_at := nowIso }

/-- Canonical generated-artifact name, src/app.py line 423: `f"offer_{doc_ref.id}.pdf"`. -/
def pdf_filename (refId : String) : String := "offer_" ++ refId ++ ".pdf"

/-- How the `admin_approve` handler terminated. -/
inductive AOutcome
  | alreadyApproved
  | approvedNew
  | failed
  deriving Repr, DecidableEq

/-- Observable result of one `admin_approve` call on a resolved record: the record
as the handler leaves it in Firestore, the outcome, whether the letter template
was rendered (`render_template` at src/app.py line 457 was invoked), the generated
file left on disk (if any), and the id the returned download URL points at. -/
structure ApproveResult where
  record : Rec
  outcome : AOutcome
  rendered : Bool
  writtenFile : Option String
  downloadFor : Option String
  deriving Repr, DecidableEq

/-- The `admin_approve` route handler on an already-resolved record
(src/app.py lines 392-552; document lookup is `resolveDoc` below).

`refId` is `doc_ref.id`; `genFolder` is `GENERATED_FOLDER`; `nowIso` and `nowFmt`
are `datetime.utcnow().isoformat()` and `strftime('%d-%m-%Y')`.  `renderOk` models
success of HTML rendering plus the PDF engines (pdfkit, with WeasyPrint fallback;
one flag since both engines failing raises from the same block), `writeOk` success
of writing the PDF file, `updateOk` success of `doc_ref.update(update_payload)`
(line 524), and `rollbackOk` success of the compensating
`doc_ref.update(\x7b'status': 'pending'\x7d)` in the except block (line 542) —
the handler swallows a failure of the rollback itself. -/
def admin_approve (refId : String) (r : Rec) (genFolder nowIso nowFmt : String)
    (renderOk writeOk updateOk rollbackOk : Bool) : ApproveResult :=
  if toLowerStr r.status == "approved" then
    ⟨r, .alreadyApproved, false, none, some refId⟩
  else if renderOk then
    if writeOk then
      let fn := pdf_filename refId
      if updateOk then
        ⟨{ r with
            status := "approved"
            generated_letter_filename := some fn
            generated_letter_path := some (genFolder ++ "/" ++ fn)
            approved_at := some nowIso
            issued_date := some nowFmt },
          .approvedNew, true, some fn, some refId⟩
      else
        ⟨if rollbackOk then { r with status := "pending" } else r, .failed, true, some fn, none⟩
    else
      ⟨if rollbackOk then { r with status := "pending" } else r, .failed, true, none, none⟩
  else
    ⟨if rollbackOk then { r with status := "pending" } else r, .failed, false, none, none⟩

/-- Observable result of one `admin_reject` call on a resolved record: the record
as updated in Firestore, and whether the previously generated file was removed. -/
structure RejectResult where
  record : Rec
  fileDeleted : Bool
  deriving Repr, DecidableEq

/-- The `admin_reject` route handler on an already-resolved record
(src/app.py lines 573-595).  `onDisk` models `gen_path.exists()` and `deleteOk`
success of `gen_path.unlink()`; an unlink failure is caught and only logged
(lines 583-584), so the Firestore update (lines 587-593) runs unconditionally. -/
def admin_reject (r : Rec) (onDisk deleteOk : Bool) : RejectResult :=
  let deleted :=
    match r.generated_letter_filename with
    | some _ => onDisk && deleteOk
    | none => false
  ⟨{ r with
      status := "rejected"
      generated_letter_filename := none
      generated_letter_path := none
      approved_at := none
      issued_date := none },
    deleted⟩

/-!  Record store: Firestore's collection as an association list from document id
to document, with the two lookup forms the handlers use. -/

/-- `db.collection(COLLECTION).document(k).get()` — point lookup by document id. -/
def getDoc (s : List (String × Rec)) (k : String) : Option Rec :=
  (s.find? (fun e => e.1 == k)).map (fun e => e.2)

/-- `db.collection(COLLECTION).where('doc_id', '==', k).limit(1)` — first document
whose `doc_id` field equals `k` (the fallback lookup at src/app.py lines 377-390). -/
def findByDocId (s : List (String × Rec)) (k : String) : Option Rec :=
  (s.find? (fun e => e.2.doc_id == k)).map (fun e => e.2)

/-- Record resolution used by `admin_view`, `admin_approve` and `admin_reject`:
by document id, falling back to the `doc_id` field query. -/
def resolveDoc (s : List (String × Rec)) (k : String) : Option Rec :=
  match getDoc s k with
  | some r => some r
  | none => findByDocId s k

/-- Every stored document's `doc_id` field equals its document key — the state of
a store populated only by this system's `submit`. -/
def SystemCreated (s : List (String × Rec)) : Prop :=
  ∀ e ∈ s, e.2.doc_id = e.1

/-!  Generated-artifact store: the contents of `GENERATED_FOLDER` as an
association list from filename to file content. -/

/-- The PDF write of `admin_approve` (src/app.py line 494, `pdfkit.from_string(html,
str(pdf_path), ...)`): writes content under the canonical name `offer_<refId>.pdf`,
replacing any existing file of that name. -/
def store_generated (fs : List (String × String)) (refId content : String) :
    List (String × String) :=
  (pdf_filename refId, content) :: fs.filter (fun e => e.1 != pdf_filename refId)

/-- Content of a file of `GENERATED_FOLDER`, by name. -/
def lookupGen (fs : List (String × String)) (name : String) : Option String :=
  (fs.find? (fun e => e.1 == name)).map (fun e => e.2)

/-- Result of a file-serving route: a served file, a redirect, or an HTTP error.
src/app.py has no 403 branch in these routes; the constructor exists so that
"never Forbidden" is expressible. -/
inductive ServeRes
  | file (name : String)
  | redirectUrl (u : String)
  | forbidden
  | notFound
  deriving Repr, DecidableEq

/-- The candidate filenames `download_letter` probes on disk, in source order
(src/app.py lines 625-631). -/
def download_candidates (reqId : String) : List String :=
  ["internship_" ++ reqId ++ ".pdf",
   reqId ++ ".pdf",
   "offer_" ++ reqId ++ ".pdf",
   "letter_" ++ reqId ++ ".pdf",
   "offer_" ++ reqId ++ ".pdf"]

/-- The `download_letter` route handler (src/app.py lines 620-656).

`fs` is the set of filenames existing in `GENERATED_FOLDER` (the `<req_id>` URL
segment contains no path separator, so each candidate resolves inside the folder
and the `startswith` guard on line 638 is a no-op for them), `recOpt` the direct
Firestore lookup of `req_id`.  In the fallback, `doc.get('pdf_url')` (line 645)
raises `KeyError` when the field is absent — caught by the surrounding `try` and
turned into the final `abort(404)` — so a record without `pdf_url` (no record
created by this app has one) never serves through the fallback.  `status` is
never consulted. -/
def download_fallback (fs : List String) (r : Rec) : ServeRes :=
  match r.pdf_url with
  | none => .notFound
  | some u =>
    match r.generated_letter_filename with
    | some g =>
      if fs.contains g then .file g
      else if u != "" then .redirectUrl u else .notFound
    | none => if u != "" then .redirectUrl u else .notFound

def download_letter (fs : List String) (recOpt : Option Rec) (reqId : String) : ServeRes :=
  match (download_candidates reqId).find? (fun c => fs.contains c) with
  | some c => .file c
  | none =>
    match recOpt with
    | none => .notFound
    | some r => download_fallback fs r

/-!  Path resolution for the uploaded-file route.  Absolute paths are lists of
segments; `resolveSegs` is the lexical effect of `Path.resolve()` on a
symlink-free tree. -/

/-- Lexical resolution of `.` and `..` segments against an absolute path given as
segments, as `Path.resolve()` performs on a symlink-free tree: empty and `.`
segments vanish, `..` drops the previous segment (staying at the root). -/
def resolveSegs (segs : List String) : List String :=
  segs.foldl
    (fun acc s =>
      if s = "" ∨ s = "." then acc
      else if s = ".." then acc.dropLast
      else acc ++ [s])
    []

/-- Interleave `/` between segments. -/
def joinSlash : List String → String
  | [] => ""
  | [s] => s
  | s :: rest => s ++ "/" ++ joinSlash rest

/-- `str(p)` for an absolute path given as segments. -/
def renderPath (segs : List String) : String :=
  "/" ++ joinSlash segs

/-- True containment: the resolved path is the root or lies below it, segment by
segment.  This is the "descendant of the configured root" check the spec requires;
compare it with the string-prefix test the code performs. -/
def isDescendantOf (base segs : List String) : Bool :=
  base.isPrefixOf segs

/-- `Path(p).name` for the relative paths the route builds: the last segment after
dropping empty and `.` components. -/
def pathName (p : String) : String :=
  ((splitOnChar '/' p).filter (fun s => s != "" && s != ".")).getLastD ""

/-- The `uploaded_file` route handler (src/app.py lines 320-346).

`uploadBase` is `Path(UPLOAD_FOLDER).resolve()` as segments; `fs` the set of
existing files as resolved absolute segment paths.  The handler strips a leading
`uploads/` then leading slashes, builds three candidates (the path itself under
the base, its basename under the base, and its basename under
`permission_letters/`), resolves each, and serves the first whose *string* form
starts with the string form of the base (line 342: `str(cand_resolved).startswith(
str(upload_base))`) and which is a file; otherwise 404. -/
def uploaded_file (uploadBase : List String) (fs : List (List String))
    (filename : String) : ServeRes :=
  let fn := if strStartsWith filename "uploads/" then ⟨filename.data.drop 8⟩ else filename
  let fn := stripLeadingSlashes fn
  let cands : List (List String) :=
    [uploadBase ++ splitOnChar '/' fn,
     uploadBase ++ [pathName fn],
     uploadBase ++ ["permission_letters", pathName fn]]
  match cands.find? (fun c =>
      strStartsWith (renderPath (resolveSegs c)) (renderPath uploadBase) &&
        fs.contains (resolveSegs c)) with
  | some c => .file (renderPath (resolveSegs c))
  | none => .notFound

/-!  Lexicographic string order, used for the `created_at` sort key (the
`created_at` values are ISO-8601 timestamps, on which lexicographic order is
chronological order). -/

/-- Lexicographic order on character lists. -/
def leCh : List Char → List Char → Bool
  | [], _ => true
  | _ :: _, [] => false
  | a :: as, b :: bs => if a < b then true else if a = b then leCh as bs else false

/-- Lexicographic order on strings. -/
def leStr (a b : String) : Bool := leCh a.data b.data

/-- Strict lexicographic order on strings. -/
def ltStr (a b : String) : Bool := leStr a b && a != b

/-- The descending `created_at` ordering of the admin dashboard listing. -/
def byCreatedDesc (a b : Rec) : Prop := leStr b.created_at a.created_at = true

instance : DecidableRel byCreatedDesc :=
  fun a b => inferInstanceAs (Decidable (leStr b.created_at a.created_at = true))

/-- Modelled from the spec: the Record Store's `list_all(order_by=created_at,
direction=descending)`.  The ordering itself is performed by Firestore's
`order_by('created_at', direction=DESCENDING)` (src/app.py line 236), an external
collaborator; per spec section 4.2 it returns the records sorted by `created_at`
descending, modelled here as an insertion sort by that key. -/
def list_all (rs : List Rec) : List Rec :=
  rs.insertionSort byCreatedDesc

/-!  Derived predicates and helper lemmas. -/

/-- The status/artifact coupling invariant of spec section 3: the generated
filename is set exactly on approved records. -/
def couplingB (r : Rec) : Bool :=
  r.generated_letter_filename.isSome == (r.status == "approved")

/-- The condition under which `submit` creates a record (spec section 4.3): all
required fields non-empty after stripping, and an uploaded file with a non-empty
name of the allowed type. -/
def validSubmission (f : Form) (file : Option String) : Prop :=
  trimStr f.full_name ≠ "" ∧ trimStr f.college_name ≠ "" ∧ trimStr f.email ≠ "" ∧
  trimStr f.start_date ≠ "" ∧ trimStr f.end_date ≠ "" ∧ trimStr f.duration ≠ "" ∧
  ∃ fn, file = some fn ∧ fn ≠ "" ∧ allowed_file fn = true

theorem toLowerStr_approved : toLowerStr "approved" = "approved" := by decide

theorem beq_approved_false_of_lower {s : String}
    (h : (toLowerStr s == "approved") = false) : (s == "approved") = false := by
  cases hq : s == "approved"
  · rfl
  · exact absurd (eq_of_beq hq ▸ h) (by rw [toLowerStr_approved]; simp)

theorem leCh_total : ∀ a b : List Char, leCh a b = true ∨ leCh b a = true := by
  intro a
  induction a with
  | nil => intro b; left; rfl
  | cons x xs ih =>
    intro b
    cases b with
    | nil => right; rfl
    | cons y ys =>
      rcases lt_trichotomy x y with h | h | h
      · left; simp [leCh, h]
      · subst h
        rcases ih ys with h2 | h2
        · left; simp [leCh, lt_irrefl, h2]
        · right; simp [leCh, lt_irrefl, h2]
      · right; simp [leCh, h]

theorem leCh_trans : ∀ a b c : List Char,
    leCh a b = true → leCh b c = true → leCh a c = true := by
  intro a
  induction a with
  | nil => intro b c _ _; rfl
  | cons x xs ih =>
    intro b c hab hbc
    cases b with
    | nil => simp [leCh] at hab
    | cons y ys =>
      cases c with
      | nil => simp [leCh] at hbc
      | cons z zs =>
        rcases lt_trichotomy x y with hxy | hxy | hxy
        · rcases lt_trichotomy y z with hyz | hyz | hyz
          · simp [leCh, lt_trans hxy hyz]
          · subst hyz; simp [leCh, hxy]
          · simp [leCh, lt_asymm hyz, ne_of_gt hyz] at hbc
        · subst hxy
          rcases lt_trichotomy x z with hyz | hyz | hyz
          · simp [leCh, hyz]
          · subst hyz
            simp only [leCh, lt_irrefl, if_false, if_pos rfl] at hab hbc ⊢
            exact ih ys zs hab hbc
          · simp [leCh, lt_asymm hyz, ne_of_gt hyz] at hbc
        · simp [leCh, lt_asymm hxy, ne_of_gt hxy] at hab

theorem leCh_antisymm : ∀ a b : List Char,
    leCh a b = true → leCh b a = true → a = b := by
  intro a
  induction a with
  | nil =>
    intro b _ hba
    cases b with
    | nil => rfl
    | cons y ys => simp [leCh] at hba
  | cons x xs ih =>
    intro b hab hba
    cases b with
    | nil => simp [leCh] at hab
    | cons y ys =>
      rcases lt_trichotomy x y with hxy | hxy | hxy
      · simp [leCh, lt_asymm hxy, ne_of_gt hxy] at hba
      · subst hxy
        simp only [leCh, lt_irrefl, if_false, if_pos rfl] at hab hba
        rw [ih ys hab hba]
      · simp [leCh, lt_asymm hxy, ne_of_gt hxy] at hab

theorem leStr_total (a b : String) : leStr a b = true ∨ leStr b a = true :=
  leCh_total a.data b.data

theorem leStr_trans {a b c : String}
    (hab : leStr a b = true) (hbc : leStr b c = true) : leStr a c = true :=
  leCh_trans a.data b.data c.data hab hbc

theorem leStr_antisymm {a b : String}
    (hab : leStr a b = true) (hba : leStr b a = true) : a = b := by
  cases a; cases b
  exact congrArg String.mk (leCh_antisymm _ _ hab hba)

theorem ltStr_le {a b : String} (h : ltStr a b = true) : leStr a b = true :=
  (Bool.and_eq_true _ _ ▸ h).1

theorem ltStr_ne {a b : String} (h : ltStr a b = true) : a ≠ b := by
  have := (Bool.and_eq_true _ _ ▸ h).2
  exact bne_iff_ne.mp this

theorem ltStr_not_le_rev {a b : String} (h : ltStr a b = true) : leStr b a = false := by
  cases hq : leStr b a
  · rfl
  · exact absurd (leStr_antisymm (ltStr_le h) hq) (ltStr_ne h)

theorem ltStr_trans {a b c : String}
    (hab : ltStr a b = true) (hbc : ltStr b c = true) : ltStr a c = true := by
  have hac : leStr a c = true := leStr_trans (ltStr_le hab) (ltStr_le hbc)
  have hne : a ≠ c := by
    intro he
    subst he
    exact absurd (ltStr_le hbc) (by rw [ltStr_not_le_rev hab]; simp)
  simp [ltStr, hac, bne_iff_ne, hne]

instance : IsTotal Rec byCreatedDesc :=
  ⟨fun a b => leStr_total b.created_at a.created_at⟩

instance : IsTrans Rec byCreatedDesc :=
  ⟨fun _ _ _ hab hbc => leStr_trans hbc hab⟩

/-!  Concrete sample data for closed statements. -/

def sampleRec : Rec :=
  { doc_id := "r1", student_name := "A", college_name := "C",
    email := "a@c.in", start_date := "2024-06-01", end_date := "2024-07-01",
    duration := "1 month", student_year := "3", branch := "CSE",
    other_branch := "", permission_pdf := "uploads/permission_letters/x.pdf",
    permission_path := "permission_letters/x.pdf", status := "pending",
    submission_date := "2024-05-01", created_at := "2024-05-01T00:00:00" }

def sampleApproved : Rec :=
  { sampleRec with status := "approved", generated_letter_filename := some "offer_r1.pdf" }

def sampleRejected : Rec :=
  { sampleRec with status := "rejected" }

def sampleForm : Form :=
  { full_name := "Asha", college_name := "X College", email := "a@x.com",
    start_date := "2024-06-01", end_date := "2024-07-01", duration := "1 month",
    student_year := "3", branch := "CSE", other_branch := "",
    submission_date := "2024-05-01" }

/-- The record `submit sampleForm …` creates (the `doc_ref.set` payload). -/
def sampleSubmitted : Rec :=
  { doc_id := "id1", student_name := "Asha", college_name := "X College",
    email := "a@x.com", start_date := "2024-06-01", end_date := "2024-07-01",
    duration := "1 month", student_year := "3", branch := "CSE",
    other_branch := "",
    permission_pdf := "uploads/permission_letters/20240501000000000000_letter.pdf",
    permission_path := "permission_letters/20240501000000000000_letter.pdf",
    status := "pending", submission_date := "2024-05-01",
    created_at := "2024-05-01T00:00:00" }

/-!  Claim theorems. -/

/-- C6: for every resolvable record, reject always updates the record — status
becomes "rejected" and `generated_letter_filename`, `approved_at`, `issued_date`
(and the letter path) are nulled — for every combination of "generated file
exists on disk" and "deletion succeeds"; a deletion failure or an absent file
does not abort the transition. -/
theorem C6_reject_always_updates :
    ∀ (r : Rec) (onDisk deleteOk : Bool),
      (admin_reject r onDisk deleteOk).record =
        { r with
            status := "rejected"
            generated_letter_filename := none
            generated_letter_path := none
            approved_at := none
            issued_date := none } := by
  intro r onDisk deleteOk
  rfl

/-- C4: the artifact-serving check of `uploaded_file` is a string-prefix test of
the canonicalized path against the root, not a descendant test.  At the concrete
failing input below — root `/srv/uploads/permission_letters`, an existing file
`/srv/uploads/permission_letters_bak/secret.pdf` in a sibling directory, and the
request `../permission_letters_bak/secret.pdf`, which contains a
parent-directory segment — the route serves a file that is not a descendant of
the root, contradicting the claim; the spec's own example `../../etc/passwd`
does resolve to not-found because its canonical form fails the string-prefix
test. -/
theorem C4_traversal_check_bypassed :
    (splitOnChar '/' "../permission_letters_bak/secret.pdf").contains ".." = true
    ∧ uploaded_file ["srv", "uploads", "permission_letters"]
        [["srv", "uploads", "permission_letters_bak", "secret.pdf"]]
        "../permission_letters_bak/secret.pdf"
      = .file "/srv/uploads/permission_letters_bak/secret.pdf"
    ∧ isDescendantOf ["srv", "uploads", "permission_letters"]
        ["srv", "uploads", "permission_letters_bak", "secret.pdf"] = false
    ∧ uploaded_file ["srv", "uploads", "permission_letters"]
        [["etc", "passwd"]] "../../../../etc/passwd" = .notFound := by
  refine ⟨by decide, by decide, by decide, by decide⟩

/-- C2 counterexample: a record whose pre-transition status is "rejected" (as an
administrator may re-approve a rejected record) and whose approval fails at
rendering is left with status "pending", not its pre-transition value
"rejected" — the rollback at src/app.py line 542 writes the literal 'pending'. -/
theorem C2_counterexample :
    sampleRejected.status = "rejected"
    ∧ (admin_approve "r1" sampleRejected "generated_letters" "2024-06-01T00:00:00"
        "01-06-2024" false false false true).record.status = "pending"
    ∧ (admin_approve "r1" sampleRejected "generated_letters" "2024-06-01T00:00:00"
        "01-06-2024" false false false true).record.status ≠ sampleRejected.status := by
  refine ⟨rfl, by decide, by decide⟩

/-- C2 amended: on any failure during approve after resolution (render failure,
artifact-write failure, or record-update failure), the operation surfaces an
error and never leaves the record marked approved — `generated_letter_filename`
is unchanged and the resulting status is not "approved" — but the status is
rolled back to the literal "pending" (when the compensating update itself
succeeds) rather than to the pre-transition value; it equals the pre-transition
value only when that value was "pending" or when the compensating update also
fails. -/
theorem C2_amended_rollback :
    ∀ (refId : String) (r : Rec) (gf iso fmt : String)
      (renderOk writeOk updateOk rollbackOk : Bool),
      (toLowerStr r.status == "approved") = false →
      (renderOk && writeOk && updateOk) = false →
      (admin_approve refId r gf iso fmt renderOk writeOk updateOk rollbackOk).outcome = .failed
      ∧ (admin_approve refId r gf iso fmt renderOk writeOk updateOk rollbackOk).record.status
          ≠ "approved"
      ∧ (admin_approve refId r gf iso fmt renderOk writeOk updateOk
            rollbackOk).record.generated_letter_filename = r.generated_letter_filename
      ∧ (rollbackOk = true →
          (admin_approve refId r gf iso fmt renderOk writeOk updateOk rollbackOk).record.status
            = "pending")
      ∧ (rollbackOk = false →
          (admin_approve refId r gf iso fmt renderOk writeOk updateOk rollbackOk).record
            = r) := by
  intro refId r gf iso fmt renderOk writeOk updateOk rollbackOk hst hfail
  have hne : r.status ≠ "approved" := by
    intro he
    have := beq_approved_false_of_lower hst
    rw [he] at this
    simp at this
  cases renderOk <;> cases writeOk <;> cases updateOk <;> simp at hfail <;>
    cases rollbackOk <;>
      simp [admin_approve, hst, hne]

/-- C2 witness: a concrete rejected record whose render step fails — with a
succeeding compensating update the status becomes the literal "pending" (not
the pre-transition "rejected"), and with a failing compensating update the
record is left exactly as it was. -/
theorem C2_amended_rollback_witness :
    (admin_approve "r1" sampleRejected "generated_letters" "2024-06-01T00:00:00" "01-06-2024"
        false true true true).outcome = .failed
    ∧ (admin_approve "r1" sampleRejected "generated_letters" "2024-06-01T00:00:00" "01-06-2024"
        false true true true).record.status = "pending"
    ∧ (admin_approve "r1" sampleRejected "generated_letters" "2024-06-01T00:00:00" "01-06-2024"
        false true true false).record = sampleRejected :=
  ⟨(C2_amended_rollback "r1" sampleRejected "generated_letters" "2024-06-01T00:00:00"
      "01-06-2024" false true true true (by decide) (by decide)).1,
   (C2_amended_rollback "r1" sampleRejected "generated_letters" "2024-06-01T00:00:00"
      "01-06-2024" false true true true (by decide) (by decide)).2.2.2.1 rfl,
   (C2_amended_rollback "r1" sampleRejected "generated_letters" "2024-06-01T00:00:00"
      "01-06-2024" false true true false (by decide) (by decide)).2.2.2.2 rfl⟩

/-- C3: approve is idempotent: on a record whose status is already "approved"
the handler short-circuits — the record is untouched, the renderer is not
invoked, no artifact is written, and the result is the download location, not an
error; consequently a second approve after a successful one leaves the
generated filename of the first in place. -/
theorem C3_approve_idempotent :
    (∀ (refId : String) (r : Rec) (gf iso fmt : String) (a b c d : Bool),
       (toLowerStr r.status == "approved") = true →
       admin_approve refId r gf iso fmt a b c d
         = ⟨r, .alreadyApproved, false, none, some refId⟩)
    ∧ (∀ (refId : String) (r : Rec) (gf iso fmt : String) (a b c d : Bool)
         (gf2 iso2 fmt2 : String) (a2 b2 c2 d2 : Bool),
       (admin_approve refId r gf iso fmt a b c d).outcome = .approvedNew →
       admin_approve refId (admin_approve refId r gf iso fmt a b c d).record
           gf2 iso2 fmt2 a2 b2 c2 d2
         = ⟨(admin_approve refId r gf iso fmt a b c d).record,
             .alreadyApproved, false, none, some refId⟩
       ∧ (admin_approve refId (admin_approve refId r gf iso fmt a b c d).record
           gf2 iso2 fmt2 a2 b2 c2 d2).record.generated_letter_filename
         = (admin_approve refId r gf iso fmt a b c d).record.generated_letter_filename) := by
  constructor
  · intro refId r gf iso fmt a b c d h
    simp [admin_approve, h]
  · intro refId r gf iso fmt a b c d gf2 iso2 fmt2 a2 b2 c2 d2 h
    have hrec : (admin_approve refId r gf iso fmt a b c d).record.status = "approved" := by
      by_cases hs : (toLowerStr r.status == "approved") = true
      · simp [admin_approve, hs] at h
      · have hs' : (toLowerStr r.status == "approved") = false := by
          cases hq : toLowerStr r.status == "approved"
          · rfl
          · exact absurd hq hs
        cases a <;> cases b <;> cases c <;> simp [admin_approve, hs'] at h ⊢
    obtain ⟨r1, hr1⟩ : ∃ r1, (admin_approve refId r gf iso fmt a b c d).record = r1 :=
      ⟨_, rfl⟩
    rw [hr1] at hrec ⊢
    have hlow : toLowerStr r1.status = "approved" := by
      rw [hrec]
      exact toLowerStr_approved
    exact ⟨by simp [admin_approve, hlow], by simp [admin_approve, hlow]⟩

/-- C3 witness: an already-approved record, and a fresh approval followed by a
second call. -/
theorem C3_approve_idempotent_witness :
    admin_approve "r1" sampleApproved "g" "i" "f" true true true true
      = ⟨sampleApproved, .alreadyApproved, false, none, some "r1"⟩
    ∧ admin_approve "r1"
        (admin_approve "r1" sampleRec "g" "i" "f" true true true true).record
        "g2" "i2" "f2" false false false false
      = ⟨(admin_approve "r1" sampleRec "g" "i" "f" true true true true).record,
          .alreadyApproved, false, none, some "r1"⟩ :=
  ⟨C3_approve_idempotent.1 "r1" sampleApproved "g" "i" "f" true true true true (by decide),
   (C3_approve_idempotent.2 "r1" sampleRec "g" "i" "f" true true true true
      "g2" "i2" "f2" false false false false (by decide)).1⟩

/-- C1: the status/filename coupling invariant holds after each lifecycle
operation: submit creates the record with status "pending" and no generated
filename; a successful approve sets status "approved" and the generated filename
together; reject nulls the filename when it sets status "rejected"; and every
approve outcome (including the failure rollback) preserves the invariant. -/
theorem C1_status_filename_coupling :
    (∀ (f : Form) (file : Option String) (sec freshId d ts iso ub : String) (r : Rec),
       submit f file sec freshId d ts iso ub = .ok r →
       r.status = "pending" ∧ r.generated_letter_filename = none ∧ couplingB r = true)
    ∧ (∀ (refId : String) (r : Rec) (gf iso fmt : String) (a b c d : Bool),
       (admin_approve refId r gf iso fmt a b c d).outcome = .approvedNew →
       (admin_approve refId r gf iso fmt a b c d).record.status = "approved"
       ∧ (admin_approve refId r gf iso fmt a b c d).record.generated_letter_filename
           = some (pdf_filename refId))
    ∧ (∀ (r : Rec) (onDisk deleteOk : Bool),
       (admin_reject r onDisk deleteOk).record.status = "rejected"
       ∧ (admin_reject r onDisk deleteOk).record.generated_letter_filename = none
       ∧ couplingB (admin_reject r onDisk deleteOk).record = true)
    ∧ (∀ (refId : String) (r : Rec) (gf iso fmt : String) (a b c d : Bool),
       couplingB r = true →
       couplingB (admin_approve refId r gf iso fmt a b c d).record = true) := by
  refine ⟨?_, ?_, ?_, ?_⟩
  · intro f file sec freshId d ts iso ub r h
    simp only [submit] at h
    repeat' split at h
    all_goals cases h <;> exact ⟨rfl, rfl, rfl⟩
  · intro refId r gf iso fmt a b c d h
    by_cases hs : (toLowerStr r.status == "approved") = true
    · simp [admin_approve, hs] at h
    · have hs' : (toLowerStr r.status == "approved") = false := by
        cases hq : toLowerStr r.status == "approved"
        · rfl
        · exact absurd hq hs
      cases a <;> cases b <;> cases c <;> simp [admin_approve, hs'] at h ⊢
  · intro r onDisk deleteOk
    exact ⟨rfl, rfl, rfl⟩
  · intro refId r gf iso fmt a b c d hc
    by_cases hs : (toLowerStr r.status == "approved") = true
    · simpa [admin_approve, hs] using hc
    · have hs' : (toLowerStr r.status == "approved") = false := by
        cases hq : toLowerStr r.status == "approved"
        · rfl
        · exact absurd hq hs
      have hnone : r.generated_letter_filename = none := by
        have hb := beq_approved_false_of_lower hs'
        unfold couplingB at hc
        rw [hb] at hc
        cases hg : r.generated_letter_filename
        · rfl
        · rw [hg] at hc
          simp at hc
      have hne : r.status ≠ "approved" := by
        intro he
        have := beq_approved_false_of_lower hs'
        rw [he] at this
        simp at this
      cases a <;> cases b <;> cases c <;> cases d <;>
        simp [admin_approve, hs', couplingB, hnone, hne]

/-- C1 witness: the concrete submitted record, a fresh approval and a rejection. -/
theorem C1_status_filename_coupling_witness :
    (sampleSubmitted.status = "pending" ∧ sampleSubmitted.generated_letter_filename = none
      ∧ couplingB sampleSubmitted = true)
    ∧ ((admin_approve "r1" sampleRec "g" "i" "f" true true true true).record.status = "approved"
      ∧ (admin_approve "r1" sampleRec "g" "i" "f" true true true
          true).record.generated_letter_filename = some (pdf_filename "r1"))
    ∧ couplingB (admin_reject sampleApproved true true).record = true :=
  ⟨C1_status_filename_coupling.1 sampleForm (some "letter.pdf") "letter.pdf" "id1"
      "2024-05-01" "20240501000000000000" "2024-05-01T00:00:00" "uploads"
      sampleSubmitted rfl,
   C1_status_filename_coupling.2.1 "r1" sampleRec "g" "i" "f" true true true true (by decide),
   (C1_status_filename_coupling.2.2.1 sampleApproved true true).2.2⟩

/-- C5 counterexample: a record with status "pending" whose canonical generated
file is (still) on disk — exactly the self-healing failure window the spec's
section 5 describes — is served by `download_letter` rather than rejected with
Forbidden: the handler never consults `status`. -/
theorem C5_counterexample :
    sampleRec.status ≠ "approved"
    ∧ download_letter ["offer_r1.pdf"] (some sampleRec) "r1" = .file "offer_r1.pdf" := by
  refine ⟨by decide, by decide⟩

/-- C5 amended: the download operation performs no status gate and has no
Forbidden outcome.  For a record without a `pdf_url` field (every record this
system creates), it returns the first candidate file for the id that exists on
disk — regardless of the record's status — and NotFound exactly when no
candidate file exists. -/
theorem C5_download_gate :
    ∀ (fs : List String) (r : Rec) (reqId : String),
      r.pdf_url = none →
      download_letter fs (some r) reqId ≠ .forbidden
      ∧ (download_letter fs (some r) reqId = .notFound ↔
          (download_candidates reqId).find? (fun c => fs.contains c) = none)
      ∧ (∀ c, (download_candidates reqId).find? (fun c => fs.contains c) = some c →
          download_letter fs (some r) reqId = .file c) := by
  intro fs r reqId hp
  cases hf : (download_candidates reqId).find? (fun c => fs.contains c) with
  | none =>
    have he : download_letter fs (some r) reqId = .notFound := by
      have h2 : download_letter fs (some r) reqId = download_fallback fs r := by
        unfold download_letter
        rw [hf]
      rw [h2]
      unfold download_fallback
      rw [hp]
    refine ⟨?_, ?_, ?_⟩
    · rw [he]
      intro hk
      cases hk
    · rw [he]
      simp
    · intro c hc
      cases hc
  | some c =>
    have he : download_letter fs (some r) reqId = .file c := by
      unfold download_letter
      rw [hf]
    refine ⟨?_, ?_, ?_⟩
    · rw [he]
      intro hk
      cases hk
    · rw [he]
      constructor
      · intro hk
        cases hk
      · intro hk
        cases hk
    · intro c2 hc2
      cases hc2
      exact he

/-- C5 witness: an empty generated folder yields NotFound for the sample record. -/
theorem C5_download_gate_witness :
    download_letter [] (some sampleRec) "r1" ≠ .forbidden
    ∧ (download_letter [] (some sampleRec) "r1" = .notFound ↔
        (download_candidates "r1").find? (fun c => List.contains [] c) = none) :=
  ⟨(C5_download_gate [] sampleRec "r1" (by decide)).1,
   (C5_download_gate [] sampleRec "r1" (by decide)).2.1⟩

/-- C7: submit creates a record exactly when every required field is non-empty
and a non-empty upload of the single allowed extension (pdf) is present, and any
record it creates has status "pending"; otherwise it fails with a validation
error and no record is created. -/
theorem C7_submit_validation :
    ∀ (f : Form) (file : Option String) (sec freshId d ts iso ub : String),
      ((submit f file sec freshId d ts iso ub).isOk = true ↔ validSubmission f file)
      ∧ (∀ r, submit f file sec freshId d ts iso ub = .ok r → r.status = "pending") := by
  intro f file sec freshId d ts iso ub
  constructor
  · unfold validSubmission
    simp only [submit]
    by_cases hval : trimStr f.full_name = "" ∨ trimStr f.college_name = ""
        ∨ trimStr f.email = "" ∨ trimStr f.start_date = "" ∨ trimStr f.end_date = ""
        ∨ trimStr f.duration = ""
    · rw [if_pos hval]
      constructor
      · intro hk
        exact Bool.noConfusion hk
      · intro hv
        exfalso
        rcases hval with hb | hb | hb | hb | hb | hb
        · exact hv.1 hb
        · exact hv.2.1 hb
        · exact hv.2.2.1 hb
        · exact hv.2.2.2.1 hb
        · exact hv.2.2.2.2.1 hb
        · exact hv.2.2.2.2.2.1 hb
    · rw [if_neg hval]
      push_neg at hval
      obtain ⟨h1, h2, h3, h4, h5, h6⟩ := hval
      cases file with
      | none =>
        constructor
        · intro hk
          exact Bool.noConfusion hk
        · rintro ⟨-, -, -, -, -, -, fn, hfn, -⟩
          cases hfn
      | some fn =>
        show (if fn = "" then Except.error SubmitErr.missingFile
            else if ¬ allowed_file fn = true then Except.error SubmitErr.wrongType
            else Except.ok _).isOk = true ↔ _
        by_cases hemp : fn = ""
        · rw [if_pos hemp]
          constructor
          · intro hk
            exact Bool.noConfusion hk
          · rintro ⟨-, -, -, -, -, -, fn2, hfn2, hne2, -⟩
            cases hfn2
            exact absurd hemp hne2
        · rw [if_neg hemp]
          by_cases hal : allowed_file fn = true
          · rw [if_neg (by rw [hal]; intro hk; exact hk rfl)]
            exact ⟨fun _ => ⟨h1, h2, h3, h4, h5, h6, fn, rfl, hemp, hal⟩, fun _ => rfl⟩
          · rw [if_pos hal]
            constructor
            · intro hk
              exact Bool.noConfusion hk
            · rintro ⟨-, -, -, -, -, -, fn2, hfn2, -, hal2⟩
              cases hfn2
              exact absurd hal2 hal
  · intro r h
    simp only [submit] at h
    repeat' split at h
    all_goals cases h <;> rfl

/-- C7 witness: the sample form with a PDF upload is accepted; its record is the
pending `sampleSubmitted`. -/
theorem C7_submit_validation_witness :
    ((submit sampleForm (some "letter.pdf") "letter.pdf" "id1" "2024-05-01"
        "20240501000000000000" "2024-05-01T00:00:00" "uploads").isOk = true
      ↔ validSubmission sampleForm (some "letter.pdf"))
    ∧ sampleSubmitted.status = "pending" :=
  ⟨(C7_submit_validation sampleForm (some "letter.pdf") "letter.pdf" "id1" "2024-05-01"
      "20240501000000000000" "2024-05-01T00:00:00" "uploads").1,
   (C7_submit_validation sampleForm (some "letter.pdf") "letter.pdf" "id1" "2024-05-01"
      "20240501000000000000" "2024-05-01T00:00:00" "uploads").2 sampleSubmitted rfl⟩

/-- C8: the approve transition writes the generated artifact under the canonical
deterministic name `offer_<record_id>.pdf` — overwriting any existing file of
that name — and records that name on the record; the download operation's
candidate list also recognizes the legacy variants `internship_<id>.pdf`,
`<id>.pdf` and `letter_<id>.pdf`. -/
theorem C8_artifact_naming :
    (∀ refId : String, pdf_filename refId = "offer_" ++ refId ++ ".pdf")
    ∧ (∀ (fs : List (String × String)) (refId content : String),
        lookupGen (store_generated fs refId content) (pdf_filename refId) = some content)
    ∧ (∀ (refId : String) (r : Rec) (gf iso fmt : String) (d : Bool),
        (toLowerStr r.status == "approved") = false →
        (admin_approve refId r gf iso fmt true true true d).writtenFile
          = some (pdf_filename refId)
        ∧ (admin_approve refId r gf iso fmt true true true d).record.generated_letter_filename
          = some (pdf_filename refId))
    ∧ (∀ refId : String,
        ("internship_" ++ refId ++ ".pdf") ∈ download_candidates refId
        ∧ (refId ++ ".pdf") ∈ download_candidates refId
        ∧ ("letter_" ++ refId ++ ".pdf") ∈ download_candidates refId
        ∧ ("offer_" ++ refId ++ ".pdf") ∈ download_candidates refId) := by
  refine ⟨fun _ => rfl, ?_, ?_, ?_⟩
  · intro fs refId content
    simp [store_generated, lookupGen, List.find?]
  · intro refId r gf iso fmt d hs
    simp [admin_approve, hs]
  · intro refId
    refine ⟨?_, ?_, ?_, ?_⟩ <;> simp [download_candidates]

/-- C8 witness: the naming facts at a concrete id and a pending record. -/
theorem C8_artifact_naming_witness :
    (admin_approve "r1" sampleRec "g" "i" "f" true true true true).writtenFile
      = some (pdf_filename "r1")
    ∧ (admin_approve "r1" sampleRec "g" "i" "f" true true true
        true).record.generated_letter_filename = some (pdf_filename "r1")
    ∧ lookupGen (store_generated [("offer_r1.pdf", "old")] "r1" "new") (pdf_filename "r1")
      = some "new" :=
  ⟨(C8_artifact_naming.2.2.1 "r1" sampleRec "g" "i" "f" true (by decide)).1,
   (C8_artifact_naming.2.2.1 "r1" sampleRec "g" "i" "f" true (by decide)).2,
   C8_artifact_naming.2.1 [("offer_r1.pdf", "old")] "r1" "new"⟩

/-- C9: the listing is sorted strictly by `created_at` descending: it is a
permutation of the stored records, pairwise ordered descending by `created_at`,
and for any three records with strictly increasing creation timestamps
t1 < t2 < t3 the listing yields them newest first, t3 t2 t1. -/
theorem C9_listing_descending :
    (∀ rs : List Rec, List.Sorted byCreatedDesc (list_all rs) ∧ List.Perm (list_all rs) rs)
    ∧ (∀ r1 r2 r3 : Rec,
        ltStr r1.created_at r2.created_at = true →
        ltStr r2.created_at r3.created_at = true →
        list_all [r1, r2, r3] = [r3, r2, r1]) := by
  constructor
  · intro rs
    exact ⟨List.sorted_insertionSort byCreatedDesc rs, List.perm_insertionSort byCreatedDesc rs⟩
  · intro r1 r2 r3 h12 h23
    have h13 : ltStr r1.created_at r3.created_at = true := ltStr_trans h12 h23
    have hn12 : ¬ byCreatedDesc r1 r2 := by
      unfold byCreatedDesc
      rw [ltStr_not_le_rev h12]
      intro hk
      cases hk
    have hn13 : ¬ byCreatedDesc r1 r3 := by
      unfold byCreatedDesc
      rw [ltStr_not_le_rev h13]
      intro hk
      cases hk
    have hn23 : ¬ byCreatedDesc r2 r3 := by
      unfold byCreatedDesc
      rw [ltStr_not_le_rev h23]
      intro hk
      cases hk
    simp [list_all, List.insertionSort, List.orderedInsert, hn12, hn13, hn23]

/-- C9 witness: three concrete records with increasing ISO timestamps list
newest first. -/
theorem C9_listing_descending_witness :
    list_all [sampleRec,
        { sampleRec with created_at := "2024-05-02T00:00:00" },
        { sampleRec with created_at := "2024-05-03T00:00:00" }]
      = [{ sampleRec with created_at := "2024-05-03T00:00:00" },
         { sampleRec with created_at := "2024-05-02T00:00:00" },
         sampleRec] :=
  C9_listing_descending.2 sampleRec
    { sampleRec with created_at := "2024-05-02T00:00:00" }
    { sampleRec with created_at := "2024-05-03T00:00:00" }
    (by decide) (by decide)

/-- C10: every record `submit` creates stores the assigned document key in its
`doc_id` field; consequently, on a store populated only by this system's
submissions, the primary lookup by document key and the fallback lookup by the
`doc_id` field agree on every key, and adding a submitted record preserves that
store invariant. -/
theorem C10_docid_matches_key :
    (∀ (f : Form) (file : Option String) (sec freshId d ts iso ub : String) (r : Rec),
       submit f file sec freshId d ts iso ub = .ok r → r.doc_id = freshId)
    ∧ (∀ (s : List (String × Rec)) (k : String),
       SystemCreated s → getDoc s k = findByDocId s k)
    ∧ (∀ (s : List (String × Rec)) (f : Form) (file : Option String)
         (sec freshId d ts iso ub : String) (r : Rec),
       SystemCreated s → submit f file sec freshId d ts iso ub = .ok r →
       SystemCreated (s ++ [(freshId, r)])) := by
  refine ⟨?_, ?_, ?_⟩
  · intro f file sec freshId d ts iso ub r h
    simp only [submit] at h
    repeat' split at h
    all_goals cases h <;> rfl
  · intro s k hsys
    induction s with
    | nil => rfl
    | cons e t ih =>
      have he : e.2.doc_id = e.1 := hsys e (List.mem_cons_self e t)
      have ht : SystemCreated t := fun x hx => hsys x (List.mem_cons_of_mem e hx)
      unfold getDoc findByDocId at ih ⊢
      rw [List.find?_cons, List.find?_cons, he]
      cases hq : (e.1 == k)
      · exact ih ht
      · rfl
  · intro s f file sec freshId d ts iso ub r hsys hok e he
    rcases List.mem_append.mp he with hin | hin
    · exact hsys e hin
    · rcases List.mem_singleton.mp hin with rfl
      have hid : r.doc_id = freshId := by
        simp only [submit] at hok
        repeat' split at hok
        all_goals cases hok <;> rfl
      exact hid

/-- C10 witness: a concrete one-record system store and the sample submission. -/
theorem C10_docid_matches_key_witness :
    sampleSubmitted.doc_id = "id1"
    ∧ getDoc [("r1", sampleRec)] "r1" = findByDocId [("r1", sampleRec)] "r1"
    ∧ getDoc [("r1", sampleRec)] "zzz" = findByDocId [("r1", sampleRec)] "zzz" :=
  ⟨C10_docid_matches_key.1 sampleForm (some "letter.pdf") "letter.pdf" "id1" "2024-05-01"
      "20240501000000000000" "2024-05-01T00:00:00" "uploads" sampleSubmitted rfl,
   C10_docid_matches_key.2.1 [("r1", sampleRec)] "r1"
     (by intro e he; rcases List.mem_singleton.mp he with rfl; rfl),
   C10_docid_matches_key.2.1 [("r1", sampleRec)] "zzz"
     (by intro e he; rcases List.mem_singleton.mp he with rfl; rfl)⟩

end JNPA
